import Mathlib

/-!
Verification development for the IBM Gen2 Ray node provider
(`src/python/ray/autoscaler/_private/gen2/node_provider.py`).

The provider code is shallowly embedded: backend SDK calls (VPC instance
API, global search, global tagging) are passed in as explicit oracles, the
mutable caches of `Gen2NodeProvider` become an explicit state record, and
Python exceptions become an `Except PyErr` result.  Python dictionaries are
association lists preserving insertion order; Python sets are duplicate-free
lists.  Source line numbers in comments refer to `node_provider.py`.
-/

/-- Python exceptions that the embedded code can raise.  `api` stands for
`ibm_cloud_sdk_core.ApiException` with its status code and message; the other
constructors stand for builtin Python exception types. -/
inductive PyErr where
  | api (code : Nat) (message : String)
  | typeError (message : String)
  | valueError (message : String)
  | keyError (key : String)
  | indexError (message : String)
  | unboundLocal (name : String)
  | runtimeError (message : String)
deriving DecidableEq, Repr

/-- Substring helper: `hasPre s l` is true when list `s` is an initial
segment of list `l` (character lists of strings). -/
def hasPre : List Char → List Char → Bool
  | [], _ => true
  | _ :: _, [] => false
  | a :: s, b :: t => a = b && hasPre s t

/-- Python `sub in s` on strings: `sub` occurs contiguously inside `s`. -/
def strIn (sub s : String) : Bool :=
  go sub.data s.data
where
  go (p : List Char) : List Char → Bool
    | [] => hasPre p []
    | l@(_ :: t) => hasPre p l || go p t

/-- Python dict lookup `d.get(k)` on an association list. -/
def dget? {α : Type} (d : List (String × α)) (k : String) : Option α :=
  match d with
  | [] => none
  | (k₀, v) :: t => if k₀ = k then some v else dget? t k

/-- Python dict assignment `d[k] = v`: replaces the value of an existing key
in place, otherwise appends the new key (insertion order semantics). -/
def dinsert {α : Type} (d : List (String × α)) (k : String) (v : α) :
    List (String × α) :=
  match d with
  | [] => [(k, v)]
  | (k₀, v₀) :: t => if k₀ = k then (k, v) :: t else (k₀, v₀) :: dinsert t k v

/-- Python `d.pop(k, None)`: drops the key if present (dict keys are
unique, so dropping every entry of the key is the same operation). -/
def dpop {α : Type} (d : List (String × α)) (k : String) : List (String × α) :=
  d.filter (fun kv => kv.1 ≠ k)

/-- Extends dict `init` with the entries of `l` via `dinsert` (Python
`init.update(dict(l))`). -/
def dictExtend {α : Type} (init l : List (String × α)) : List (String × α) :=
  l.foldl (fun d kv => dinsert d kv.1 kv.2) init

/-- Python `dict((k, v) for ...)` built from scratch. -/
def dictOfList {α : Type} (l : List (String × α)) : List (String × α) :=
  dictExtend [] l

/-- Python `set.add`: appends the element unless already present. -/
def sadd (s : List String) (x : String) : List String :=
  if x ∈ s then s else s ++ [x]

/-- Python `set.discard`: removes the element if present. -/
def sdiscard (s : List String) (x : String) : List String :=
  s.filter (fun y => y ≠ x)

/-- Insert into a sorted list of strings (ascending). -/
def insSorted (x : String) : List String → List String
  | [] => [x]
  | y :: t => if x < y then x :: y :: t else y :: insSorted x t

/-- Python `sorted` on a list of strings. -/
def sortStr (l : List String) : List String :=
  l.foldr insSorted []

/-- Python `list.remove(x)`: removes the first occurrence, raising
`ValueError` when the element is absent. -/
def pyListRemove (l : List String) (x : String) : Except PyErr (List String) :=
  if x ∈ l then .ok (l.erase x) else .error (.valueError "list.remove(x): x not in list")

/-! ### Module constants (lines 36-52) -/

def INSTANCE_NAME_UUID_LEN : Nat := 8
def INSTANCE_NAME_MAX_LEN : Nat := 64
def PENDING_TIMEOUT : Nat := 120
def RAY_RECYCLABLE : String := "ray-recyclable"

/-- The six mutually exclusive status tags (lines 45-49). -/
def ALL_STATUS_TAGS : List String :=
  ["ray-node-status:uninitialized", "ray-node-status:waiting-for-ssh",
   "ray-node-status:setting-up", "ray-node-status:syncing-files",
   "ray-node-status:up-to-date", "ray-node-status:update-failed"]

def RETRIES : Nat := 10
def WORKER : String := "worker"
def HEAD : String := "head"

/-- Tag-key constants imported from `ray.autoscaler.tags` (not part of this
repository; their values are documented by the comment at lines 183-184 of the
source and by the standard Ray definitions). -/
def TAG_RAY_CLUSTER_NAME : String := "ray-cluster-name"
def TAG_RAY_NODE_KIND : String := "ray-node-type"
def TAG_RAY_NODE_NAME : String := "ray-node-name"
def TAG_RAY_LAUNCH_CONFIG : String := "ray-launch-config"

/-! ### Data model -/

/-- A floating IP record as the SDK returns it. -/
structure FloatingIp where
  id : String
  address : String
  name : String
deriving DecidableEq, Repr

/-- An item of a global-search result (the node dict used throughout the
provider).  `status` is `node["doc"]["status"]`, `nic_ids` the ids of
`node["doc"]["network_interfaces"]`, `floating_ips` the value the
reconciliation loop stores under `node["floating_ips"]` (empty when the key
is absent, which Python `node.get(...)` reports as a falsy `None`). -/
structure SearchItem where
  resource_id : String
  name : String
  crn : String
  tags : List String
  status : String
  nic_ids : List String
  floating_ips : List FloatingIp
deriving DecidableEq, Repr

/-- The mutable caches of `Gen2NodeProvider` (lines 145-169) plus the two
configuration fields the embedded methods read.  `pending_nodes` maps an id
to the instance record that `_create_node` stores at line 772. -/
structure ProviderState where
  cached_nodes : List (String × SearchItem)
  pending_nodes : List (String × SearchItem)
  prev_nodes : List (String × List String)
  deleted_nodes : List String
  cluster_name : String
  cache_stopped_nodes : Bool
deriving DecidableEq, Repr

/-- The backend oracles used by `non_terminated_nodes`: the search service
(indexed by how many searches were already issued in this call), the
authoritative `get_instance` cross-check, and the floating-ip listing for a
network interface. -/
structure NTBackend where
  search : Nat → List SearchItem
  get_instance : String → Except PyErr Unit
  list_fips : String → String → List FloatingIp

/-- Embeds `_get_node_type` (lines 172-176): classifies by substring of the display
name; Python falls through and returns None when neither matches. -/
def get_node_type (cluster name : String) : Option String :=
  if strIn (cluster ++ "-" ++ WORKER) name then some WORKER
  else if strIn (cluster ++ "-" ++ HEAD) name then some HEAD
  else none

/-- Ascending insertion of key-value pairs ordered as Python orders tuples
(key first, then value). -/
def insPair (x : String × String) : List (String × String) → List (String × String)
  | [] => [x]
  | y :: t =>
    if x.1 < y.1 ∨ (x.1 = y.1 ∧ x.2 < y.2) then x :: y :: t else y :: insPair x t

/-- Python `sorted(tag_filters.items())`. -/
def sortPairs (l : List (String × String)) : List (String × String) :=
  l.foldr insPair []

/-- Query construction of `non_terminated_nodes` (lines 185-187). -/
def buildQuery (cluster : String) (tag_filters : List (String × String)) : String :=
  (sortPairs tag_filters).foldl
    (fun q kv => q ++ " AND tags:\"" ++ kv.1 ++ ":" ++ kv.2 ++ "\"")
    ("tags:\"" ++ TAG_RAY_CLUSTER_NAME ++ ":" ++ cluster ++ "\"")

/-! ### The reconciliation engine: `non_terminated_nodes` (lines 178-361) -/

/-- Body of the per-item filtering inside the search-retry loop
(lines 211-262): deleted ids are masked (line 214), only statuses
pending/starting/running pass (lines 220-227), `get_instance` rejects
zombies (lines 230-243, a not-found message skips the item, any other error
propagates), and a head node without a floating ip is excluded while one
with floating ips gets them stored on the record (lines 245-262). -/
def processItem (B : NTBackend) (deleted : List String) (cluster : String)
    (node : SearchItem) : Except PyErr (Option SearchItem) :=
  if node.resource_id ∈ deleted then .ok none
  else if node.status ∉ ["pending", "starting", "running"] then .ok none
  else
    match B.get_instance node.resource_id with
    | .error e =>
      match e with
      | .api _ msg =>
        if msg = "Instance not found" then .ok none else .error (e)
      | _ => .error e
    | .ok _ =>
      if get_node_type cluster node.name = some "head" then
        match node.nic_ids with
        | [] => .error (.indexError "list index out of range")
        | nic :: _ =>
          let fips := B.list_fips node.resource_id nic
          if fips = [] then .ok none
          else .ok (some { node with floating_ips := fips })
      else .ok (some node)

/-- The `for node in items` loop (lines 211-262) collecting `nodes`. -/
def processItems (B : NTBackend) (deleted : List String) (cluster : String) :
    List SearchItem → Except PyErr (List SearchItem)
  | [] => .ok []
  | n :: t =>
    match processItem B deleted cluster n with
    | .error e => .error e
    | .ok none => processItems B deleted cluster t
    | .ok (some n₂) =>
      match processItems B deleted cluster t with
      | .error e => .error e
      | .ok ns => .ok (n₂ :: ns)

/-- What one iteration of the retry loop computes before the
missing-node decision: the filtered `nodes`, the `found_nodes` dict
(line 264), the possibly updated `prev_nodes` (the `else` branch at
lines 275-278 stores an empty set under a fresh non-head query key), and
the sorted set `prev_nodes_keys - found_nodes.keys()` (lines 283, 299). -/
structure PassOut where
  nodes : List SearchItem
  found : List (String × SearchItem)
  prev : List (String × List String)
  missing : List String
deriving DecidableEq, Repr

/-- One search pass of the retry loop over given search items
(lines 204-300 up to the branch decision). -/
def ntSearchPass (B : NTBackend) (deleted : List String) (cluster query : String)
    (items : List SearchItem) (prev : List (String × List String)) :
    Except PyErr PassOut :=
  match processItems B deleted cluster items with
  | .error e => .error e
  | .ok nodes =>
    let found := dictOfList (nodes.map fun n => (n.resource_id, n))
    let scope :=
      if strIn HEAD query then (dget? prev HEAD).getD []
      else (dget? prev query).getD []
    let prev₂ :=
      if strIn HEAD query then prev
      else if scope = [] then dinsert prev query [] else prev
    let missing := sortStr (scope.filter fun x => dget? found x = none)
    .ok ⟨nodes, found, prev₂, missing⟩

/-- Loop state carried out of the retry loop: `found_nodes`, `nodes` and
`missing_nodes` as the post-loop code reads them (lines 323-361), plus the
final `prev_nodes`. -/
structure NTExit where
  found : List (String × SearchItem)
  nodes : List SearchItem
  missing_nodes : List String
  prev : List (String × List String)
deriving DecidableEq, Repr

def NT_RETRIES : Nat := 20

/-- The clean-pass bookkeeping at lines 315-319: record every found id in the
head scope or in the query scope.  Looking up an absent key with
`self.prev_nodes[...]` raises `KeyError`. -/
def addFoundToPrev (query : String) :
    List SearchItem → List (String × List String) →
    Except PyErr (List (String × List String))
  | [], prev => .ok prev
  | n :: t, prev =>
    if "ray-node-type:head" ∈ n.tags then
      match dget? prev HEAD with
      | none => .error (.keyError HEAD)
      | some s => addFoundToPrev query t (dinsert prev HEAD (sadd s n.resource_id))
    else
      match dget? prev query with
      | none => .error (.keyError query)
      | some s => addFoundToPrev query t (dinsert prev query (sadd s n.resource_id))

/-- The retry loop (lines 197-321).  `retry` and `missing_nodes` are the
loop variables; `k` counts issued searches; `last` carries the previous
iteration values of `(found_nodes, nodes)`, which the loop leaves behind for
the post-loop code when the retry cap exits the `while`.  `fuel` bounds the
number of simulated iterations: the result is `none` when the loop is still
running after `fuel` searches.  A changed missing set resets `retry` to 0
(lines 292-297), the transitional uninitialized-head query breaks out
keeping the previous `missing_nodes` (lines 287-289), and a clean pass
clears `missing_nodes` and breaks (lines 309-321). -/
def ntLoop (B : NTBackend) (deleted : List String) (cluster query : String) :
    Nat → Nat → List String → List (String × List String) → Nat →
    List (String × SearchItem) × List SearchItem →
    Option (Except PyErr NTExit)
  | fuel, retry, missing_nodes, prev, k, last =>
    if NT_RETRIES ≤ retry then some (.ok ⟨last.1, last.2, missing_nodes, prev⟩)
    else
      match fuel with
      | 0 => none
      | fuel + 1 =>
        match ntSearchPass B deleted cluster query (B.search k) prev with
        | .error e => some (.error e)
        | .ok p =>
          if p.missing = [] then
            match addFoundToPrev query p.nodes p.prev with
            | .error e => some (.error e)
            | .ok prev₂ => some (.ok ⟨p.found, p.nodes, [], prev₂⟩)
          else
            if strIn "ray-node-status:uninitialized" query &&
                strIn "ray-node-type:head" query then
              some (.ok ⟨p.found, p.nodes, missing_nodes, p.prev⟩)
            else
              let retry₂ :=
                if missing_nodes ≠ [] ∧ p.missing ≠ missing_nodes then 0
                else retry + 1
              ntLoop B deleted cluster query fuel retry₂ p.missing p.prev (k + 1)
                (p.found, p.nodes)

/-- Cache pruning for ids that stayed missing (lines 324-328): discard from
the head scope and from the query scope (a `KeyError` when the query was
never stored as a key) and pop from `cached_nodes`. -/
def pruneMissing (query : String) :
    List String → List (String × List String) → List (String × SearchItem) →
    Except PyErr (List (String × List String) × List (String × SearchItem))
  | [], prev, cached => .ok (prev, cached)
  | n :: t, prev, cached =>
    match dget? prev HEAD with
    | none => .error (.keyError HEAD)
    | some sh =>
      let prev₁ := dinsert prev HEAD (sdiscard sh n)
      match dget? prev₁ query with
      | none => .error (.keyError query)
      | some sq =>
        pruneMissing query t (dinsert prev₁ query (sdiscard sq n)) (dpop cached n)

/-- The pending-node merge loop (lines 336-359).  A pending id found by
search with status running is popped from `pending_nodes` (lines 338-341).
For a pending id NOT found by search, line 344 computes
`self.pending_nodes[pend_id] - time.time()`; `pending_nodes` stores the
instance record itself (line 772), and subtracting a float from a dict
raises `TypeError` in Python, so the timeout-delete branch (lines 348-353)
and the append-to-result branch (lines 354-359) below it are unreachable. -/
def pendingLoop (found : List (String × SearchItem)) :
    List String → List (String × SearchItem) →
    Except PyErr (List (String × SearchItem))
  | [], pending => .ok pending
  | pid :: t, pending =>
    match dget? found pid with
    | some node =>
      if node.status = "running" then pendingLoop found t (dpop pending pid)
      else pendingLoop found t pending
    | none =>
      .error (.typeError "unsupported operand type for -: dict and float")

/-- Embeds `non_terminated_nodes` (lines 178-361), undecorated body.  `fuel` bounds
the simulated iterations of the inner search-retry loop; the result is
`none` when that loop is still retrying after `fuel` searches, otherwise
`some` of the Python outcome: the returned `node_ids` with the updated
provider state, or the exception raised. -/
def non_terminated_nodes (B : NTBackend) (s : ProviderState)
    (tag_filters : List (String × String)) (fuel : Nat) :
    Option (Except PyErr (List String × ProviderState)) :=
  let query := buildQuery s.cluster_name tag_filters
  match ntLoop B s.deleted_nodes s.cluster_name query fuel 0 [] s.prev_nodes 0
      ([], []) with
  | none => none
  | some (.error e) => some (.error e)
  | some (.ok ex) =>
    match pruneMissing query ex.missing_nodes ex.prev s.cached_nodes with
    | .error e => some (.error e)
    | .ok (prev₂, cached₂) =>
      let cached₃ := dictExtend cached₂ ex.found
      let node_ids := ex.nodes.map (fun n => n.resource_id)
      match pendingLoop ex.found (s.pending_nodes.map Prod.fst) s.pending_nodes with
      | .error e => some (.error e)
      | .ok pending₂ =>
        some (.ok (node_ids,
          { s with cached_nodes := cached₃, pending_nodes := pending₂,
                   prev_nodes := prev₂ }))

/-- Embeds `terminate_node` (lines 887-919).  The backend stop/delete action is
abstracted by `actionExc`: `none` when it returned normally (for the
delete branch, after `_delete_node` swallowed its own 404), `some e` when it
raised `e`.  On a normal action the id is appended to `deleted_nodes`,
discarded from every `prev_nodes` scope and popped from `cached_nodes`
(lines 906-913); note that the pop from `pending_nodes` is commented out in
the source (line 914).  An `ApiException` with code 404 is swallowed WITHOUT
updating the caches (lines 915-917); other exceptions propagate. -/
def terminate_node (s : ProviderState) (node_id : String)
    (actionExc : Option PyErr) : Except PyErr ProviderState :=
  match actionExc with
  | some e =>
    match e with
    | .api code _ => if code = 404 then .ok s else .error e
    | _ => .error e
  | none =>
    .ok { s with
          deleted_nodes := s.deleted_nodes ++ [node_id],
          prev_nodes := s.prev_nodes.map (fun kv => (kv.1, sdiscard kv.2 node_id)),
          cached_nodes := dpop s.cached_nodes node_id }

/-! ### The retry wrapper: `retry_on_except` (lines 88-109)

In the source, `e = None` is assigned before the loop, each failed attempt
is caught by `except Exception as e:`, and after the loop `raise e` runs.
Python deletes the target of `except ... as e` when the except block ends
(the language translates it to `try ... finally: del e`), so after any
caught exception the name `e` is unbound; `sawExc` records whether an
except block ran.  `f k` is the outcome of attempt `k`; the returned `Nat`
counts the `_init_clients()` calls made between attempts (line 103). -/

def retryGo {α : Type} (f : Nat → Except PyErr α) :
    Nat → Nat → Nat → Bool → Except PyErr α × Nat
  | 0, _, inits, sawExc =>
    -- after the loop: `raise e`.  With an exception caught before, `e` is
    -- unbound (UnboundLocalError); with none caught the loop would have
    -- returned, so the other branch is unreachable (`raise None` would be a
    -- TypeError).
    ((if sawExc then .error (.unboundLocal "e")
      else .error (.typeError "exceptions must derive from BaseException")), inits)
  | r + 1, k, inits, _ =>
    match f k with
    | .ok a => (.ok a, inits)
    | .error _ => retryGo f r (k + 1) (inits + 1) true

/-- The decorator applied to an entry point: up to `RETRIES` attempts,
reinitializing clients after every failure. -/
def retry_on_except {α : Type} (f : Nat → Except PyErr α) :
    Except PyErr α × Nat :=
  retryGo f RETRIES 0 0 false

/-! ### The tag manager: `_global_tagging_with_retries` (lines 457-526)

The tagging backend is modelled by a store (the set of tag names attached
to the one resource in play) plus a schedule of per-call behaviours indexed
by how many SDK calls were already made: a call can raise, report
`is_error`, and when it succeeds its effect may or may not have reached the
store (the lagging backend that makes the verify-after-write loop
necessary).  `list_tags` always reports the current store when it does not
raise.  As in `retry_on_except`, `except Exception as e:` unbinds `e`, so
the post-loop `if e: raise e` (lines 523-526) raises `UnboundLocalError`
whenever an attempt raised, and returns `False` otherwise. -/

/-- Behaviour of one SDK call against the tagging service. -/
structure TagCallEff where
  raises : Option PyErr
  is_error : Bool
  applied : Bool
deriving DecidableEq, Repr

/-- Python set union `store | tags` keeping insertion order. -/
def tagUnion (store tags : List String) : List String :=
  store ++ tags.filter (fun t => t ∉ store)

/-- The `f_name == "list_tags"` branch of `_global_tagging_with_retries`
(lines 485-487) as its own recursion: each attempt either raises (caught,
retry) or returns the current tag items.  Exhausting all attempts reaches
`if e: raise e` with `e` unbound. -/
def listTagsRetries (sch : Nat → TagCallEff) (store : List String) :
    Nat → Nat → Bool → Except PyErr (List String) × Nat
  | 0, k, sawExc =>
    ((if sawExc then .error (.unboundLocal "e")
      else .error (.typeError "argument of type bool is not iterable")), k)
  | r + 1, k, _ =>
    match (sch k).raises with
    | some _ => listTagsRetries sch store r (k + 1) true
    | none => (.ok store, k + 1)

/-- The attach/detach branches of `_global_tagging_with_retries`
(lines 461-526).  `isAttach` selects `attach_tag` (verify that all of
`tags` are listed afterwards, lines 465-484) or `detach_tag` (verify that
none of `tags` remain listed, lines 489-506).  The result Bool is the
truthiness of what Python returns: `tag_results` (true) or `False`.
Returns (outcome, final store, next call index). -/
def tagModifyRetries (sch : Nat → TagCallEff) (isAttach : Bool)
    (tags : List String) :
    Nat → List String → Nat → Bool → Except PyErr Bool × List String × Nat
  | 0, store, k, sawExc =>
    ((if sawExc then .error (.unboundLocal "e") else .ok false), store, k)
  | r + 1, store, k, sawExc =>
    match (sch k).raises, isAttach with
    | some _, _ => tagModifyRetries sch isAttach tags r store (k + 1) true
    | none, true =>
      -- the `f_name == "attach_tag"` branch (lines 465-484)
      let store₁ := if (sch k).applied then tagUnion store tags else store
      if (sch k).is_error then
        tagModifyRetries sch isAttach tags r store₁ (k + 1) sawExc
      else
        match listTagsRetries sch store₁ RETRIES (k + 1) false with
        | (.error _, k₂) =>
          -- the inner list_tags call raised out of its own retries; the
          -- outer `except Exception as e` catches it
          tagModifyRetries sch isAttach tags r store₁ k₂ true
        | (.ok items, k₂) =>
          if ∀ t ∈ tags, t ∈ items then (.ok true, store₁, k₂)
          else tagModifyRetries sch isAttach tags r store₁ k₂ sawExc
    | none, false =>
      -- the detach branch (lines 489-506)
      let store₁ :=
        if (sch k).applied then store.filter (fun t => t ∉ tags) else store
      if (sch k).is_error then
        tagModifyRetries sch isAttach tags r store₁ (k + 1) sawExc
      else
        match listTagsRetries sch store₁ RETRIES (k + 1) false with
        | (.error _, k₂) => tagModifyRetries sch isAttach tags r store₁ k₂ true
        | (.ok items, k₂) =>
          if ∃ t ∈ items, t ∈ tags then
            tagModifyRetries sch isAttach tags r store₁ k₂ sawExc
          else (.ok true, store₁, k₂)

/-- Embeds `set_node_tags` (lines 535-569) for one resource whose backend tag
store starts as `store`.  Attaches the formatted tags (verified); a falsy
result hits the bare `raise` at line 549, which Python reports as
`RuntimeError` since no exception is active.  When a `ray-node-status` key
is present, the five other members of `ALL_STATUS_TAGS` are detached
(verified); `tags_to_detach.remove(...)` raises `ValueError` when the new
status is not one of the six.  Returns the final backend store. -/
def set_node_tags (sch : Nat → TagCallEff) (store : List String)
    (tags : List (String × String)) : Except PyErr (List String) :=
  let new_tags := tags.map (fun kv => kv.1 ++ ":" ++ kv.2)
  match tagModifyRetries sch true new_tags RETRIES store 0 false with
  | (.error e, _, _) => .error e
  | (.ok false, _, _) => .error (.runtimeError "No active exception to re-raise")
  | (.ok true, store₁, k₁) =>
    if "ray-node-status" ∈ tags.map Prod.fst then
      let newStatus := "ray-node-status:" ++ (dget? tags "ray-node-status").getD ""
      match pyListRemove ALL_STATUS_TAGS newStatus with
      | .error e => .error e
      | .ok tags_to_detach =>
        match tagModifyRetries sch false tags_to_detach RETRIES store₁ k₁ false with
        | (.error e, _, _) => .error e
        | (.ok false, _, _) => .error (.runtimeError "No active exception to re-raise")
        | (.ok true, store₂, _) => .ok store₂
    else .ok store₁

/-! ### Instance creation: `_get_instance_data` and `_create_instance`
(lines 571-649) -/

/-- A VPC instance record (opaque fields as far as the claims go). -/
structure VpcInstance where
  id : String
  name : String
  crn : String
deriving DecidableEq, Repr

/-- Embeds `_get_instance_data` (lines 571-579): first instance listed under the
name, else None. -/
def get_instance_data (listed : List VpcInstance) : Option VpcInstance :=
  listed.head?

/-- The error handling of `_create_instance` (lines 632-649).  `createResp`
is the outcome of the `create_instance` SDK call, `listed` the result of
`list_instances(name=name)`.  An `ApiException` with code 400 whose message
mentions "already exists" falls back to `_get_instance_data`; the
quota-exceeded 400 and every other error are logged and re-raised
(`raise e` runs inside the except block, where `e` is still bound). -/
def create_instance (createResp : Except PyErr VpcInstance)
    (listed : List VpcInstance) : Except PyErr (Option VpcInstance) :=
  match createResp with
  | .ok r => .ok (some r)
  | .error e =>
    match e with
    | .api code msg =>
      if code = 400 ∧ strIn "already exists" msg then .ok (get_instance_data listed)
      else .error (.api code msg)
    | other => .error other

/-! ### Addresses: `_get_hybrid_ip` and `external_ip` (lines 401-432) -/

/-- Embeds `_get_hybrid_ip` (lines 401-415).  `cached` is the record
`_get_cached_node` returns, `refreshed` the record a fresh `_get_node`
fetch returns, `internalIp` the value `internal_ip` would produce (the
non-head branch).  Python returns None when a head node has no floating ip
in either record. -/
def get_hybrid_ip (cluster : String) (cached refreshed : SearchItem)
    (internalIp : Option String) : Option String :=
  if get_node_type cluster cached.name = some "head" then
    match cached.floating_ips with
    | f :: _ => some f.address
    | [] =>
      match refreshed.floating_ips with
      | f :: _ => some f.address
      | [] => none
  else internalIp

/-- Embeds `external_ip` (lines 417-432): hybrid mode delegates to
`_get_hybrid_ip`; otherwise the cached record and then a refreshed fetch
are tried for a floating ip, and the function falls through to None when
both lists are empty. -/
def external_ip (use_hybrid_ips : Bool) (cluster : String)
    (cached refreshed : SearchItem) (internalIp : Option String) :
    Option String :=
  if use_hybrid_ips then get_hybrid_ip cluster cached refreshed internalIp
  else
    match cached.floating_ips with
    | f :: _ => some f.address
    | [] =>
      match refreshed.floating_ips with
      | f :: _ => some f.address
      | [] => none

/-! ### Stopped-node reuse and `create_node` (lines 697-734, 799-848) -/

/-- The filtering of `_stopped_nodes` (lines 717-734): keep the search
items whose authoritative instance status is stopped or stopping; a
not-found message skips the item, any other `get_instance` error
propagates.  `getStatus` is the oracle for
`self.ibm_vpc_client.get_instance(id).result["status"]`. -/
def stopped_nodes (getStatus : String → Except PyErr String) :
    List SearchItem → Except PyErr (List SearchItem)
  | [] => .ok []
  | n :: t =>
    match getStatus n.resource_id with
    | .error e =>
      match e with
      | .api _ msg =>
        if msg = "Instance not found" then stopped_nodes getStatus t
        else .error e
      | _ => .error e
    | .ok state =>
      match stopped_nodes getStatus t with
      | .error e => .error e
      | .ok ns =>
        if state ∈ ["stopped", "stopping"] then .ok (n :: ns) else .ok ns

/-- The retag-and-unmark loop of `create_node` (lines 828-830): for each
reused id, `set_node_tags` (abstracted by the `retag` oracle; its raised
exceptions propagate) and then `self.deleted_nodes.remove(node_id)`, which
raises `ValueError` for an id not in the deleted list. -/
def retagLoop (retag : String → Except PyErr Unit) :
    List String → List String → Except PyErr (List String)
  | [], deleted => .ok deleted
  | id :: t, deleted =>
    match retag id with
    | .error e => .error e
    | .ok _ =>
      match pyListRemove deleted id with
      | .error e => .error e
      | .ok deleted₂ => retagLoop retag t deleted₂

/-- Embeds `create_node` (lines 799-848).  `searchItems` is what the stopped-node
search returns, `getStatus` the instance-status oracle of `_stopped_nodes`,
`retag` the `set_node_tags` oracle, and `mkCreated i` the `(id, record)`
pair the i-th `_create_node` worker returns.  Python subtracts the reused
count from `count` (so the remainder can reach zero or go negative) and
then constructs `ThreadPoolExecutor(count)`, which raises
`ValueError("max_workers must be greater than 0")` for `count <= 0`.
Returns the updated state and the union dict of reused and created
records. -/
def create_node (s : ProviderState) (searchItems : List SearchItem)
    (getStatus : String → Except PyErr String)
    (retag : String → Except PyErr Unit)
    (mkCreated : Nat → String × SearchItem) (count : Int) :
    Except PyErr (ProviderState × List (String × SearchItem)) :=
  if s.cache_stopped_nodes then
    match stopped_nodes getStatus searchItems with
    | .error e => .error e
    | .ok stopped =>
      let stopped_ids := stopped.map (fun n => n.resource_id)
      let stopped_dict := dictOfList (stopped.map fun n => (n.resource_id, n))
      match retagLoop retag stopped_ids s.deleted_nodes with
      | .error e => .error e
      | .ok deleted₂ =>
        let count₂ : Int := count - stopped_ids.length
        if count₂ ≤ 0 then .error (.valueError "max_workers must be greater than 0")
        else
          let created := (List.range count₂.toNat).map mkCreated
          .ok ({ s with deleted_nodes := deleted₂ }, dictExtend stopped_dict created)
  else
    if count ≤ 0 then .error (.valueError "max_workers must be greater than 0")
    else .ok (s, dictExtend [] ((List.range count.toNat).map mkCreated))

/-! ### Concrete fixtures used by the closed theorems and witnesses -/

/-- Oracle: `get_instance` succeeds for every id. -/
def fxGiOK : String → Except PyErr Unit := fun _ => .ok ()

/-- Oracle: no network interface has floating ips. -/
def fxNoFips : String → String → List FloatingIp := fun _ _ => []

/-- The query `non_terminated_nodes` builds for cluster `c1` with no tag
filters. -/
def fxQ : String := buildQuery "c1" []

def fxItemA : SearchItem :=
  ⟨"a", "c1-worker-1", "crn-a", ["ray-node-type:worker"], "running", [], []⟩

def fxItemB : SearchItem :=
  ⟨"b", "c1-worker-2", "crn-b", ["ray-node-type:worker"], "running", [], []⟩

/-- Backend whose search results alternate: the found set misses `a` on
even passes and misses `b` on odd passes, so the sorted missing set differs
between every two consecutive iterations. -/
def fxAltBackend : NTBackend :=
  ⟨fun k => if k % 2 = 0 then [fxItemB] else [fxItemA], fxGiOK, fxNoFips⟩

/-- State whose previously-seen scope for `fxQ` holds `{a, b}`. -/
def fxAltState : ProviderState :=
  ⟨[], [], [("head", []), (fxQ, ["a", "b"])], [], "c1", true⟩

/-- A pending instance record (what `_create_node` stores at line 772). -/
def fxItemI : SearchItem := ⟨"i1", "c1-worker-9", "crn-i", [], "pending", [], []⟩

/-- State with one pending node `i1` and nothing else. -/
def fxPendState : ProviderState := ⟨[], [("i1", fxItemI)], [("head", [])], [], "c1", true⟩

/-- Backend whose search returns nothing (the pending node is not yet
indexed by the tag search). -/
def fxEmptyBackend : NTBackend := ⟨fun _ => [], fxGiOK, fxNoFips⟩

def fxItemP1 : SearchItem := ⟨"p1", "c1-worker-5", "crn-p1", [], "pending", [], []⟩

/-- State with one pending node `p1` just registered by `_create_node`. -/
def fxPendState2 : ProviderState :=
  ⟨[], [("p1", fxItemP1)], [("head", [])], [], "c1", true⟩

def fxItemP2 : SearchItem :=
  ⟨"p2", "c1-worker-7", "crn-p2", ["ray-node-type:worker"], "running", [], []⟩

/-- State with one pending node `p2` that search meanwhile reports as
running. -/
def fxPendState3 : ProviderState :=
  ⟨[], [("p2", fxItemP2)], [("head", [])], [], "c1", true⟩

def fxRunBackend : NTBackend := ⟨fun _ => [fxItemP2], fxGiOK, fxNoFips⟩

/-- The provider state `non_terminated_nodes` leaves behind in the
promoted-pending scenario: `p2` cached, `pending_nodes` emptied. -/
def fxPendState3After : ProviderState :=
  ⟨[("p2", fxItemP2)], [], [("head", []), (fxQ, ["p2"])], [], "c1", true⟩

def fxItemX : SearchItem :=
  ⟨"x", "c1-worker-1", "crn-x", ["ray-node-type:worker"], "running", [], []⟩

def fxItemY : SearchItem :=
  ⟨"y", "c1-worker-2", "crn-y", ["ray-node-type:worker"], "running", [], []⟩

/-- State before terminating `x`: `x` cached and previously seen. -/
def fxTermState0 : ProviderState :=
  ⟨[("x", fxItemX)], [], [("head", []), (fxQ, ["x", "y"])], [], "c1", true⟩

/-- The state `terminate_node` produces from `fxTermState0`. -/
def fxTermState1 : ProviderState :=
  ⟨[], [], [("head", []), (fxQ, ["y"])], ["x"], "c1", true⟩

/-- Backend whose stale search still returns the terminated `x` alongside
the live `y`. -/
def fxStaleBackend : NTBackend := ⟨fun _ => [fxItemX, fxItemY], fxGiOK, fxNoFips⟩

/-- The state the masked reconciliation leaves behind: only `y` cached. -/
def fxTermState2 : ProviderState :=
  ⟨[("y", fxItemY)], [], [("head", []), (fxQ, ["y"])], ["x"], "c1", true⟩

/-- The state the reconciliation leaves behind when `x` was never added to
the deleted-ids list: both `x` and `y` cached and listed. -/
def fxTerm404After : ProviderState :=
  ⟨[("x", fxItemX), ("y", fxItemY)], [],
   [("head", []), (fxQ, ["x", "y"])], [], "c1", true⟩

/-- Tagging schedule: every call succeeds but no effect ever reaches the
store (the verification can never pass). -/
def fxSchLag : Nat → TagCallEff := fun _ => ⟨none, false, false⟩

/-- Tagging schedule: every call raises an `ApiException`. -/
def fxSchRaise : Nat → TagCallEff := fun _ => ⟨some (.api 500 "boom"), false, false⟩

/-- Tagging schedule: every call succeeds and takes effect immediately. -/
def fxSchOK : Nat → TagCallEff := fun _ => ⟨none, false, true⟩

/-- A stopped worker instance eligible for reuse. -/
def fxStopItem : SearchItem := ⟨"n1", "c1-worker-1", "crn-n1", [], "stopped", [], []⟩

/-- State whose deleted-ids list holds the previously stopped `n1`. -/
def fxCreateState : ProviderState := ⟨[], [], [("head", [])], ["n1"], "c1", true⟩

def fxGetStopped : String → Except PyErr String := fun _ => .ok "stopped"

def fxRetagOK : String → Except PyErr Unit := fun _ => .ok ()

/-- The i-th created record of the creation batch. -/
def fxMkCreated : Nat → String × SearchItem := fun i =>
  ("c" ++ toString i,
   ⟨"c" ++ toString i, "c1-worker-new", "crn-c", [], "pending", [], []⟩)

/-- A head node record with no floating ip anywhere. -/
def fxHeadNoFip : SearchItem := ⟨"h1", "c1-head-1", "crn-h", [], "running", ["nic1"], []⟩

/-! ### Helper lemmas on the dict and set operations -/

theorem dget?_dinsert_ne {α : Type} (d : List (String × α)) (k k₂ : String)
    (v : α) (h : k₂ ≠ k) : dget? (dinsert d k v) k₂ = dget? d k₂ := by
  induction d with
  | nil => simp [dinsert, dget?, (Ne.symm h)]
  | cons hd t ih =>
    obtain ⟨k₀, v₀⟩ := hd
    by_cases hk : k₀ = k
    · subst hk
      simp [dinsert, dget?, Ne.symm h]
    · by_cases hk₂ : k₀ = k₂
      · simp [dinsert, hk, dget?, hk₂, h]
      · simp [dinsert, hk, dget?, hk₂, ih]

theorem dget?_dpop_none {α : Type} {d : List (String × α)} {k : String}
    (n : String) (h : dget? d k = none) : dget? (dpop d n) k = none := by
  induction d with
  | nil => simp [dpop, dget?]
  | cons hd t ih =>
    obtain ⟨k₀, v₀⟩ := hd
    simp only [dget?] at h
    by_cases hk : k₀ = k
    · simp [hk] at h
    · simp only [hk, if_false] at h
      by_cases hn : k₀ = n
      · simpa [dpop, hn] using ih h
      · simpa [dpop, hn, dget?, hk] using ih h

theorem dget?_dictExtend_none {α : Type} (l : List (String × α)) :
    ∀ (init : List (String × α)) (k : String), k ∉ l.map Prod.fst →
    dget? init k = none → dget? (dictExtend init l) k = none := by
  induction l with
  | nil => intro init k _ h; simpa [dictExtend] using h
  | cons hd t ih =>
    intro init k hk h
    simp only [List.map_cons, List.mem_cons] at hk
    push_neg at hk
    have step : dget? (dinsert init hd.1 hd.2) k = none := by
      rw [dget?_dinsert_ne init hd.1 k hd.2 hk.1]; exact h
    simpa [dictExtend] using ih (dinsert init hd.1 hd.2) k hk.2 step

theorem dget?_dictOfList_none {α : Type} (l : List (String × α)) (k : String)
    (hk : k ∉ l.map Prod.fst) : dget? (dictOfList l) k = none :=
  dget?_dictExtend_none l [] k hk rfl

/-! ### Lemmas: deleted ids are masked throughout reconciliation -/

theorem processItem_some_rid {B : NTBackend} {deleted : List String}
    {cluster : String} {node n₂ : SearchItem}
    (h : processItem B deleted cluster node = .ok (some n₂)) :
    n₂.resource_id = node.resource_id ∧ node.resource_id ∉ deleted := by
  unfold processItem at h
  by_cases hdel : node.resource_id ∈ deleted
  · rw [if_pos hdel] at h; cases h
  · rw [if_neg hdel] at h
    refine ⟨?_, hdel⟩
    by_cases hst : node.status ∉ ["pending", "starting", "running"]
    · rw [if_pos hst] at h; cases h
    · rw [if_neg hst] at h
      cases hgi : B.get_instance node.resource_id with
      | error e =>
        rw [hgi] at h
        simp only at h
        cases e with
        | api c m =>
          simp only at h
          by_cases hm : m = "Instance not found"
          · rw [if_pos hm] at h; cases h
          · rw [if_neg hm] at h; cases h
        | typeError m => simp at h
        | valueError m => simp at h
        | keyError m => simp at h
        | indexError m => simp at h
        | unboundLocal m => simp at h
        | runtimeError m => simp at h
      | ok u =>
        rw [hgi] at h
        simp only at h
        by_cases hhd : get_node_type cluster node.name = some "head"
        · rw [if_pos hhd] at h
          cases hn : node.nic_ids with
          | nil => rw [hn] at h; cases h
          | cons nic rest =>
            rw [hn] at h
            simp only at h
            by_cases hf : B.list_fips node.resource_id nic = []
            · rw [if_pos hf] at h; cases h
            · rw [if_neg hf] at h; cases h; rfl
        · rw [if_neg hhd] at h; cases h; rfl

theorem processItems_not_deleted {B : NTBackend} {deleted : List String}
    {cluster : String} : ∀ {items : List SearchItem} {ns : List SearchItem},
    processItems B deleted cluster items = .ok ns →
    ∀ n ∈ ns, n.resource_id ∉ deleted := by
  intro items
  induction items with
  | nil =>
    intro ns h n hn
    simp only [processItems] at h
    cases h
    cases hn
  | cons it t ih =>
    intro ns h n hn
    unfold processItems at h
    cases hpi : processItem B deleted cluster it with
    | error e => rw [hpi] at h; cases h
    | ok o =>
      rw [hpi] at h
      cases o with
      | none => exact ih h n hn
      | some n₂ =>
        cases hres : processItems B deleted cluster t with
        | error e => rw [hres] at h; cases h
        | ok ns₂ =>
          rw [hres] at h
          cases h
          rcases List.mem_cons.mp hn with hn | hn
          · subst hn
            obtain ⟨hrid, hnd⟩ := processItem_some_rid hpi
            rw [hrid]; exact hnd
          · exact ih hres n hn

theorem ntSearchPass_masks {B : NTBackend} {deleted : List String}
    {cluster query : String} {items : List SearchItem}
    {prev : List (String × List String)} {p : PassOut}
    (h : ntSearchPass B deleted cluster query items prev = .ok p)
    {id : String} (hdel : id ∈ deleted) :
    (∀ n ∈ p.nodes, n.resource_id ≠ id) ∧ dget? p.found id = none := by
  unfold ntSearchPass at h
  cases hpi : processItems B deleted cluster items with
  | error e => rw [hpi] at h; cases h
  | ok nodes =>
    rw [hpi] at h
    simp only at h
    cases h
    constructor
    · intro n hn hm
      exact (processItems_not_deleted hpi n hn) (hm ▸ hdel)
    · apply dget?_dictOfList_none
      intro hmem
      simp only [List.map_map, List.mem_map, Function.comp] at hmem
      obtain ⟨n, hn, hrid⟩ := hmem
      exact (processItems_not_deleted hpi n hn) (hrid ▸ hdel)

theorem ntLoop_ok_masks {B : NTBackend} {deleted : List String}
    {cluster query : String} {id : String} (hdel : id ∈ deleted) :
    ∀ (fuel retry : Nat) (missing : List String)
      (prev : List (String × List String)) (k : Nat)
      (last : List (String × SearchItem) × List SearchItem) (ex : NTExit),
      (∀ n ∈ last.2, n.resource_id ≠ id) → dget? last.1 id = none →
      ntLoop B deleted cluster query fuel retry missing prev k last =
        some (.ok ex) →
      (∀ n ∈ ex.nodes, n.resource_id ≠ id) ∧ dget? ex.found id = none := by
  intro fuel
  induction fuel with
  | zero =>
    intro retry missing prev k last ex hlast hfound h
    unfold ntLoop at h
    by_cases hcap : NT_RETRIES ≤ retry
    · rw [if_pos hcap] at h
      cases h
      exact ⟨hlast, hfound⟩
    · rw [if_neg hcap] at h; cases h
  | succ fuel ih =>
    intro retry missing prev k last ex hlast hfound h
    unfold ntLoop at h
    by_cases hcap : NT_RETRIES ≤ retry
    · rw [if_pos hcap] at h
      cases h
      exact ⟨hlast, hfound⟩
    · rw [if_neg hcap] at h
      simp only at h
      cases hp : ntSearchPass B deleted cluster query (B.search k) prev with
      | error e => rw [hp] at h; cases h
      | ok p =>
        rw [hp] at h
        simp only at h
        obtain ⟨hnodes, hfnd⟩ := ntSearchPass_masks hp hdel
        by_cases hm : p.missing = []
        · rw [if_pos hm] at h
          cases haf : addFoundToPrev query p.nodes p.prev with
          | error e => rw [haf] at h; cases h
          | ok prev₂ =>
            rw [haf] at h
            cases h
            exact ⟨hnodes, hfnd⟩
        · rw [if_neg hm] at h
          by_cases hu : (strIn "ray-node-status:uninitialized" query &&
              strIn "ray-node-type:head" query) = true
          · rw [if_pos hu] at h
            cases h
            exact ⟨hnodes, hfnd⟩
          · rw [if_neg hu] at h
            exact ih _ _ _ _ _ _ hnodes hfnd h

theorem dget?_eq_none_not_mem {α : Type} :
    ∀ {d : List (String × α)} {k : String}, dget? d k = none →
    k ∉ d.map Prod.fst := by
  intro d
  induction d with
  | nil => intro k _ hk; cases hk
  | cons hd t ih =>
    intro k h hk
    obtain ⟨k₀, v₀⟩ := hd
    simp only [dget?] at h
    by_cases he : k₀ = k
    · simp [he] at h
    · rw [if_neg he] at h
      rcases List.mem_cons.mp hk with hk | hk
      · exact he hk.symm
      · exact ih h hk

theorem dget?_dpop_self {α : Type} (d : List (String × α)) (k : String) :
    dget? (dpop d k) k = none := by
  induction d with
  | nil => rfl
  | cons hd t ih =>
    obtain ⟨k₀, v₀⟩ := hd
    by_cases he : k₀ = k
    · simpa [dpop, he] using ih
    · simpa [dpop, he, dget?] using ih

theorem pruneMissing_cached_none {query : String} :
    ∀ {ms : List String} {prev : List (String × List String)}
      {cached : List (String × SearchItem)}
      {prev₂ : List (String × List String)}
      {cached₂ : List (String × SearchItem)} {id : String},
    pruneMissing query ms prev cached = .ok (prev₂, cached₂) →
    dget? cached id = none → dget? cached₂ id = none := by
  intro ms
  induction ms with
  | nil =>
    intro prev cached prev₂ cached₂ id h hc
    simp only [pruneMissing] at h
    cases h
    exact hc
  | cons n t ih =>
    intro prev cached prev₂ cached₂ id h hc
    unfold pruneMissing at h
    cases hh : dget? prev HEAD with
    | none => rw [hh] at h; cases h
    | some sh =>
      rw [hh] at h
      simp only at h
      cases hq : dget? (dinsert prev HEAD (sdiscard sh n)) query with
      | none => rw [hq] at h; cases h
      | some sq =>
        rw [hq] at h
        simp only at h
        exact ih h (dget?_dpop_none n hc)

/-- C1, amended: every id on which terminate_node completes with the
backend stop/delete action returning normally (not by swallowing a 404
ApiException - see the counterexample: that path also returns successfully
but skips the cache update at lines 906-913) is appended to the deleted-ids
list and removed from the cached-nodes map, and any later
non_terminated_nodes call that returns a list - under any tag filter and
any backend behaviour, including a stale search that still returns an item
with that resource id - neither includes the id in the returned list nor
reinstates it into the cached-nodes map, and keeps it in the deleted-ids
list. -/
theorem terminated_ids_stay_masked :
    (∀ (s : ProviderState) (id : String) (s₁ : ProviderState),
        terminate_node s id none = .ok s₁ →
        id ∈ s₁.deleted_nodes ∧ dget? s₁.cached_nodes id = none) ∧
    (∀ (B : NTBackend) (s : ProviderState)
        (tag_filters : List (String × String)) (fuel : Nat) (id : String)
        (ids : List String) (s₂ : ProviderState),
        id ∈ s.deleted_nodes → dget? s.cached_nodes id = none →
        non_terminated_nodes B s tag_filters fuel = some (.ok (ids, s₂)) →
        id ∉ ids ∧ dget? s₂.cached_nodes id = none ∧ id ∈ s₂.deleted_nodes) := by
  constructor
  · intro s id s₁ h
    unfold terminate_node at h
    cases h
    exact ⟨by simp, dget?_dpop_self s.cached_nodes id⟩
  · intro B s filters fuel id ids s₂ hdel hcached h
    unfold non_terminated_nodes at h
    simp only at h
    cases hl : ntLoop B s.deleted_nodes s.cluster_name
        (buildQuery s.cluster_name filters) fuel 0 [] s.prev_nodes 0 ([], []) with
    | none => rw [hl] at h; cases h
    | some r =>
      rw [hl] at h
      cases r with
      | error e => simp at h
      | ok ex =>
        simp only at h
        obtain ⟨hnodes, hfnd⟩ :=
          ntLoop_ok_masks hdel fuel 0 [] s.prev_nodes 0 ([], []) ex
            (by intro n hn; cases hn) (by rfl) hl
        cases hpm : pruneMissing (buildQuery s.cluster_name filters)
            ex.missing_nodes ex.prev s.cached_nodes with
        | error e => rw [hpm] at h; cases h
        | ok pc =>
          rw [hpm] at h
          obtain ⟨prev₂, cached₂⟩ := pc
          simp only at h
          cases hpl : pendingLoop ex.found (s.pending_nodes.map Prod.fst)
              s.pending_nodes with
          | error e => rw [hpl] at h; cases h
          | ok pending₂ =>
            rw [hpl] at h
            simp only at h
            cases h
            refine ⟨?_, ?_, ?_⟩
            · intro hmem
              simp only [List.mem_map] at hmem
              obtain ⟨n, hn, hrid⟩ := hmem
              exact hnodes n hn hrid
            · exact dget?_dictExtend_none ex.found cached₂ id
                (dget?_eq_none_not_mem hfnd)
                (pruneMissing_cached_none hpm hcached)
            · simpa using hdel

/-- Witness for C1: terminate the cached worker `x`, then reconcile against
a backend whose stale search still returns `x`; the returned list is
exactly `["y"]` and `x` stays only in the deleted-ids list. -/
theorem terminated_ids_stay_masked_witness :
    (terminate_node fxTermState0 "x" none = .ok fxTermState1) ∧
    ("x" ∈ fxTermState1.deleted_nodes ∧
      dget? fxTermState1.cached_nodes "x" = none) ∧
    (non_terminated_nodes fxStaleBackend fxTermState1 [] 5 =
      some (.ok (["y"], fxTermState2))) ∧
    (dget? fxTermState2.cached_nodes "x" = none ∧
      "x" ∈ fxTermState2.deleted_nodes) :=
  ⟨rfl,
   terminated_ids_stay_masked.1 fxTermState0 "x" fxTermState1 rfl,
   rfl,
   (terminated_ids_stay_masked.2 fxStaleBackend fxTermState1 [] 5 "x" ["y"]
      fxTermState2 (by decide) rfl rfl).2⟩

/-- C1, counterexample: in the stop branch a 404 `ApiException` from the
backend action is swallowed (lines 915-917), so `terminate_node` completes
successfully WITHOUT running the cache update at lines 906-913: the id is
not added to the deleted-ids list (still empty), and a subsequent
`non_terminated_nodes` call even returns a list containing the id, because
the stale search result is not masked. -/
theorem terminate_node_404_completes_without_masking :
    terminate_node fxTermState0 "x" (some (.api 404 "Instance not found")) =
      .ok fxTermState0 ∧
    fxTermState0.deleted_nodes = [] ∧
    non_terminated_nodes fxStaleBackend fxTermState0 [] 5 =
      some (.ok (["x", "y"], fxTerm404After)) :=
  ⟨rfl, rfl, rfl⟩

/-! ### Lemmas: behaviour of the retry cap -/

theorem ntSearchPass_missing_prev {B : NTBackend} {deleted : List String}
    {cluster query : String} {items : List SearchItem}
    {prev : List (String × List String)} {p : PassOut}
    (h : ntSearchPass B deleted cluster query items prev = .ok p)
    (hm : p.missing ≠ []) : p.prev = prev := by
  unfold ntSearchPass at h
  cases hpi : processItems B deleted cluster items with
  | error e => rw [hpi] at h; cases h
  | ok nodes =>
    rw [hpi] at h
    simp only at h
    cases h
    by_cases hh : strIn HEAD query = true
    · simp [hh]
    · by_cases hs : ((dget? prev query).getD []) = []
      · exfalso
        apply hm
        simp only [Bool.not_eq_true] at hh
        simp [hh, hs, sortStr]
      · simp only [Bool.not_eq_true] at hh
        simp [hh, hs]

theorem ntLoop_const_isSome (items : List SearchItem)
    (gi : String → Except PyErr Unit)
    (fl : String → String → List FloatingIp) (deleted : List String)
    (cluster query : String) :
    ∀ (fuel retry : Nat) (missing : List String)
      (prev : List (String × List String)) (k : Nat)
      (last : List (String × SearchItem) × List SearchItem),
      NT_RETRIES ≤ fuel + retry →
      (missing = [] ∨
        ∃ p, ntSearchPass ⟨fun _ => items, gi, fl⟩ deleted cluster query items
              prev = .ok p ∧ p.missing = missing ∧ p.prev = prev) →
      (ntLoop ⟨fun _ => items, gi, fl⟩ deleted cluster query fuel retry missing
        prev k last).isSome = true := by
  intro fuel
  induction fuel with
  | zero =>
    intro retry missing prev k last hcap _
    unfold ntLoop
    have hr : NT_RETRIES ≤ retry := by simpa using hcap
    rw [if_pos hr]
    rfl
  | succ fuel ih =>
    intro retry missing prev k last hcap hinv
    unfold ntLoop
    by_cases hr : NT_RETRIES ≤ retry
    · rw [if_pos hr]; rfl
    · rw [if_neg hr]
      simp only
      cases hp : ntSearchPass ⟨fun _ => items, gi, fl⟩ deleted cluster query
          items prev with
      | error e => rfl
      | ok p =>
        simp only
        by_cases hm2 : p.missing = []
        · rw [if_pos hm2]
          cases addFoundToPrev query p.nodes p.prev <;> rfl
        · rw [if_neg hm2]
          by_cases hu : (strIn "ray-node-status:uninitialized" query &&
              strIn "ray-node-type:head" query) = true
          · rw [if_pos hu]; rfl
          · rw [if_neg hu]
            have hnr : ¬(missing ≠ [] ∧ p.missing ≠ missing) := by
              rcases hinv with hmiss | ⟨p₀, hp₀, hpm, _⟩
              · intro hc; exact hc.1 hmiss
              · intro hc
                rw [hp₀] at hp
                cases hp
                exact hc.2 hpm
            rw [if_neg hnr]
            have hprev : p.prev = prev := ntSearchPass_missing_prev hp hm2
            apply ih
            · omega
            · right
              refine ⟨p, ?_, rfl, rfl⟩
              rw [hprev]
              exact hp

theorem fxAlt_pass_even :
    ntSearchPass fxAltBackend [] "c1" fxQ [fxItemB] fxAltState.prev_nodes =
      .ok ⟨[fxItemB], [("b", fxItemB)], fxAltState.prev_nodes, ["a"]⟩ := by
  rfl

theorem fxAlt_pass_odd :
    ntSearchPass fxAltBackend [] "c1" fxQ [fxItemA] fxAltState.prev_nodes =
      .ok ⟨[fxItemA], [("a", fxItemA)], fxAltState.prev_nodes, ["b"]⟩ := by
  rfl

/-- Under the alternating backend the loop never exits: the sorted missing
set flips between `["a"]` and `["b"]` on every iteration, so the retry
counter keeps being reset to 0 (lines 292-297) and never reaches the cap. -/
theorem fxAlt_loop_none :
    ∀ (fuel retry : Nat) (m : List String) (k : Nat)
      (last : List (String × SearchItem) × List SearchItem),
      ((m = [] ∧ k % 2 = 0 ∧ retry + 1 < NT_RETRIES) ∨
       (m = ["a"] ∧ k % 2 = 1 ∧ retry < NT_RETRIES) ∨
       (m = ["b"] ∧ k % 2 = 0 ∧ retry < NT_RETRIES)) →
      ntLoop fxAltBackend [] "c1" fxQ fuel retry m fxAltState.prev_nodes k
        last = none := by
  intro fuel
  induction fuel with
  | zero =>
    intro retry m k last hinv
    unfold ntLoop
    have hr : ¬ NT_RETRIES ≤ retry := by
      rcases hinv with ⟨_, _, h⟩ | ⟨_, _, h⟩ | ⟨_, _, h⟩ <;> omega
    rw [if_neg hr]
  | succ fuel ih =>
    intro retry m k last hinv
    unfold ntLoop
    have hr : ¬ NT_RETRIES ≤ retry := by
      rcases hinv with ⟨_, _, h⟩ | ⟨_, _, h⟩ | ⟨_, _, h⟩ <;> omega
    rw [if_neg hr]
    simp only
    rcases hinv with ⟨hm, hk, hlt⟩ | ⟨hm, hk, hlt⟩ | ⟨hm, hk, hlt⟩
    · subst hm
      have hsearch : fxAltBackend.search k = [fxItemB] := by
        simp [fxAltBackend, hk]
      rw [hsearch, fxAlt_pass_even]
      simp only
      rw [if_neg (by decide : ¬(["a"] : List String) = [])]
      rw [if_neg (by decide : ¬(strIn "ray-node-status:uninitialized" fxQ &&
        strIn "ray-node-type:head" fxQ) = true)]
      rw [if_neg (by simp : ¬(([] : List String) ≠ [] ∧ (["a"] : List String) ≠ []))]
      exact ih (retry + 1) ["a"] (k + 1) _ (Or.inr (Or.inl ⟨rfl, by omega, hlt⟩))
    · subst hm
      have hsearch : fxAltBackend.search k = [fxItemA] := by
        simp [fxAltBackend]
        intro h
        omega
      rw [hsearch, fxAlt_pass_odd]
      simp only
      rw [if_neg (by decide : ¬(["b"] : List String) = [])]
      rw [if_neg (by decide : ¬(strIn "ray-node-status:uninitialized" fxQ &&
        strIn "ray-node-type:head" fxQ) = true)]
      rw [if_pos (by decide : (["a"] : List String) ≠ [] ∧ (["b"] : List String) ≠ ["a"])]
      exact ih 0 ["b"] (k + 1) _ (Or.inr (Or.inr ⟨rfl, by omega, by decide⟩))
    · subst hm
      have hsearch : fxAltBackend.search k = [fxItemB] := by
        simp [fxAltBackend, hk]
      rw [hsearch, fxAlt_pass_even]
      simp only
      rw [if_neg (by decide : ¬(["a"] : List String) = [])]
      rw [if_neg (by decide : ¬(strIn "ray-node-status:uninitialized" fxQ &&
        strIn "ray-node-type:head" fxQ) = true)]
      rw [if_pos (by decide : (["b"] : List String) ≠ [] ∧ (["a"] : List String) ≠ ["b"])]
      exact ih 0 ["a"] (k + 1) _ (Or.inr (Or.inl ⟨rfl, by omega, by decide⟩))

/-- C2, counterexample: against a backend whose consecutive search results
make the sorted missing-id set alternate between `["a"]` and `["b"]`, the
retry counter is reset to 0 on every change (lines 292-297), so the loop is
still running after 45 search iterations - more than twice the supposed cap
of 20 - and `non_terminated_nodes` has not exited. -/
theorem nt_retry_cap_exceeded :
    non_terminated_nodes fxAltBackend fxAltState [] 45 = none := by
  have hl : ntLoop fxAltBackend fxAltState.deleted_nodes
      fxAltState.cluster_name (buildQuery fxAltState.cluster_name []) 45 0 []
      fxAltState.prev_nodes 0 ([], []) = none :=
    fxAlt_loop_none 45 0 [] 0 ([], []) (Or.inl ⟨rfl, rfl, by decide⟩)
  unfold non_terminated_nodes
  simp only
  rw [hl]

/-- C2, amended: the retry cap of 20 does bound the loop as long as the
sorted missing set does not change between consecutive iterations; in
particular, for every backend whose search result is the same on every
iteration of one call, `non_terminated_nodes` finishes within `NT_RETRIES`
(20) search iterations, for every state and tag filter. -/
theorem nt_retry_cap_when_search_stable (items : List SearchItem)
    (gi : String → Except PyErr Unit)
    (fl : String → String → List FloatingIp) (s : ProviderState)
    (tag_filters : List (String × String)) :
    (non_terminated_nodes ⟨fun _ => items, gi, fl⟩ s tag_filters
      NT_RETRIES).isSome = true := by
  unfold non_terminated_nodes
  simp only
  have hl := ntLoop_const_isSome items gi fl s.deleted_nodes s.cluster_name
    (buildQuery s.cluster_name tag_filters)
    NT_RETRIES 0 [] s.prev_nodes 0 ([], [])
    (by simp) (Or.inl rfl)
  cases hres : ntLoop ⟨fun _ => items, gi, fl⟩ s.deleted_nodes s.cluster_name
      (buildQuery s.cluster_name tag_filters) NT_RETRIES 0 [] s.prev_nodes 0
      ([], []) with
  | none => rw [hres] at hl; cases hl
  | some r =>
    cases r with
    | error e => rfl
    | ok ex =>
      simp only
      cases pruneMissing (buildQuery s.cluster_name tag_filters)
          ex.missing_nodes ex.prev s.cached_nodes with
      | error e => rfl
      | ok pc =>
        simp only
        cases pendingLoop ex.found (s.pending_nodes.map Prod.fst)
            s.pending_nodes with
        | error e => rfl
        | ok pending₂ => rfl

/-- C3: the timeout-delete path for pending nodes is unreachable.
`pending_nodes` maps the id to the instance record itself (line 772), so
when a pending id is not found by search, line 344 subtracts `time.time()`
from that record and raises `TypeError`; `non_terminated_nodes` therefore
raises instead of deleting the timed-out pending instance and popping it
from `pending_nodes` (and even read as a timestamp, the reversed operands
`stored - now` can never exceed the positive `PENDING_TIMEOUT`). -/
theorem pending_timeout_raises_type_error :
    non_terminated_nodes fxEmptyBackend fxPendState [] 25 =
      some (.error (.typeError
        "unsupported operand type for -: dict and float")) := by
  rfl

/-- C4: a pending id that search has not yet confirmed makes
`non_terminated_nodes` raise `TypeError` at line 344 instead of appending
the id to the returned list (first conjunct); the promotion half does work:
a pending id found by search with status running is popped from
`pending_nodes` and returned (second conjunct). -/
theorem pending_node_visibility :
    (non_terminated_nodes fxEmptyBackend fxPendState2 [] 25 =
      some (.error (.typeError
        "unsupported operand type for -: dict and float"))) ∧
    (non_terminated_nodes fxRunBackend fxPendState3 [] 25 =
      some (.ok (["p2"], fxPendState3After)) ∧
      fxPendState3After.pending_nodes = []) := by
  exact ⟨rfl, rfl, rfl⟩

/-- C5: a Retry-Wrapper entry point whose every attempt raises does
reinitialize the clients after each of the 10 attempts, but the final
`raise e` (line 107) does not re-raise the last exception: Python unbinds
the `except ... as e` target when the except block ends, so the wrapper
raises `UnboundLocalError` for `e` instead of the last exception of the wrapped function
(here `ApiException(500)`). -/
theorem retry_wrapper_exhaustion :
    retry_on_except (fun _ => (.error (.api 500 "boom") : Except PyErr Unit)) =
      (.error (.unboundLocal "e"), 10) := by
  rfl

/-- C6: `_global_tagging_with_retries` on an attach whose calls always
succeed but whose effect never reaches the store (verification never
confirms the delta) returns `False` after the 10 attempts (first
conjunct) - that half of the claim holds.  But when every attempt raises,
the post-loop `if e:` (line 523) hits the unbound `except ... as e` target
and raises `UnboundLocalError` instead of re-raising the remembered
exception (second conjunct). -/
theorem tagging_retries_exhaustion :
    (tagModifyRetries fxSchLag true ["t:1"] RETRIES [] 0 false =
      (.ok false, [], 20)) ∧
    (tagModifyRetries fxSchRaise true ["t:1"] RETRIES [] 0 false =
      (.error (.unboundLocal "e"), [], 10)) := by
  exact ⟨rfl, rfl⟩

/-! ### Lemmas: the verify-after-write tagging loops -/

theorem mem_tagUnion {a b : List String} {x : String} :
    x ∈ tagUnion a b ↔ x ∈ a ∨ x ∈ b := by
  simp only [tagUnion, List.mem_append, List.mem_filter, decide_eq_true_eq]
  tauto

theorem attach_step_mem {store tags : List String} {applied : Bool}
    {x : String}
    (hx : x ∈ (if applied = true then tagUnion store tags else store)) :
    x ∈ store ∨ x ∈ tags := by
  by_cases h : applied = true
  · rw [if_pos h] at hx
    exact (mem_tagUnion.mp hx).imp id id
  · rw [if_neg h] at hx
    exact Or.inl hx

theorem detach_step_iff {store tags : List String} {applied : Bool}
    {x : String} (hx : x ∉ tags) :
    x ∈ (if applied = true then store.filter (fun t => t ∉ tags) else store) ↔
      x ∈ store := by
  by_cases h : applied = true
  · rw [if_pos h]
    simp [List.mem_filter, hx]
  · rw [if_neg h]

theorem listTagsRetries_ok {sch : Nat → TagCallEff} {store : List String} :
    ∀ {r k : Nat} {b : Bool} {its : List String} {k₂ : Nat},
    listTagsRetries sch store r k b = (.ok its, k₂) → its = store := by
  intro r
  induction r with
  | zero =>
    intro k b its k₂ h
    simp only [listTagsRetries] at h
    split at h <;> simp at h
  | succ r ih =>
    intro k b its k₂ h
    unfold listTagsRetries at h
    cases hr : (sch k).raises with
    | some e => rw [hr] at h; exact ih h
    | none => rw [hr] at h; cases h; rfl

theorem tagModifyRetries_attach_ok {sch : Nat → TagCallEff}
    {tags : List String} :
    ∀ {r : Nat} {store : List String} {k : Nat} {b : Bool}
      {store₂ : List String} {k₂ : Nat},
    tagModifyRetries sch true tags r store k b = (.ok true, store₂, k₂) →
    (∀ t ∈ tags, t ∈ store₂) ∧ (∀ x ∈ store₂, x ∈ store ∨ x ∈ tags) := by
  intro r
  induction r with
  | zero =>
    intro store k b store₂ k₂ h
    simp only [tagModifyRetries] at h
    split at h <;> simp at h
  | succ r ih =>
    intro store k b store₂ k₂ h
    unfold tagModifyRetries at h
    cases hr : (sch k).raises with
    | some e =>
      rw [hr] at h
      simp only at h
      exact ih h
    | none =>
      rw [hr] at h
      simp only at h
      by_cases he : (sch k).is_error = true
      · rw [if_pos he] at h
        obtain ⟨h₁, h₂⟩ := ih h
        exact ⟨h₁, fun x hx =>
          (h₂ x hx).elim (fun hx₁ => attach_step_mem hx₁) Or.inr⟩
      · rw [if_neg he] at h
        cases hls : listTagsRetries sch
            (if (sch k).applied = true then tagUnion store tags else store)
            RETRIES (k + 1) false with
        | mk o₃ k₃ =>
          rw [hls] at h
          cases o₃ with
          | error e₃ =>
            simp only at h
            obtain ⟨h₁, h₂⟩ := ih h
            exact ⟨h₁, fun x hx =>
              (h₂ x hx).elim (fun hx₁ => attach_step_mem hx₁) Or.inr⟩
          | ok items =>
            simp only at h
            by_cases hv : ∀ t ∈ tags, t ∈ items
            · rw [if_pos hv] at h
              cases h
              have hits := listTagsRetries_ok hls
              subst hits
              exact ⟨hv, fun x hx => attach_step_mem hx⟩
            · rw [if_neg hv] at h
              obtain ⟨h₁, h₂⟩ := ih h
              exact ⟨h₁, fun x hx =>
                (h₂ x hx).elim (fun hx₁ => attach_step_mem hx₁) Or.inr⟩

theorem tagModifyRetries_detach_ok {sch : Nat → TagCallEff}
    {tags : List String} :
    ∀ {r : Nat} {store : List String} {k : Nat} {b : Bool}
      {store₂ : List String} {k₂ : Nat},
    tagModifyRetries sch false tags r store k b = (.ok true, store₂, k₂) →
    (∀ t ∈ tags, t ∉ store₂) ∧
    (∀ x, x ∉ tags → (x ∈ store₂ ↔ x ∈ store)) := by
  intro r
  induction r with
  | zero =>
    intro store k b store₂ k₂ h
    simp only [tagModifyRetries] at h
    split at h <;> simp at h
  | succ r ih =>
    intro store k b store₂ k₂ h
    unfold tagModifyRetries at h
    cases hr : (sch k).raises with
    | some e =>
      rw [hr] at h
      simp only at h
      exact ih h
    | none =>
      rw [hr] at h
      simp only at h
      by_cases he : (sch k).is_error = true
      · rw [if_pos he] at h
        obtain ⟨h₁, h₂⟩ := ih h
        exact ⟨h₁, fun x hx => (h₂ x hx).trans (detach_step_iff hx)⟩
      · rw [if_neg he] at h
        cases hls : listTagsRetries sch
            (if (sch k).applied = true then
              store.filter (fun t => t ∉ tags) else store)
            RETRIES (k + 1) false with
        | mk o₃ k₃ =>
          rw [hls] at h
          cases o₃ with
          | error e₃ =>
            simp only at h
            obtain ⟨h₁, h₂⟩ := ih h
            exact ⟨h₁, fun x hx => (h₂ x hx).trans (detach_step_iff hx)⟩
          | ok items =>
            simp only at h
            by_cases hv : ∃ t ∈ items, t ∈ tags
            · rw [if_pos hv] at h
              obtain ⟨h₁, h₂⟩ := ih h
              exact ⟨h₁, fun x hx => (h₂ x hx).trans (detach_step_iff hx)⟩
            · rw [if_neg hv] at h
              cases h
              have hits := listTagsRetries_ok hls
              subst hits
              refine ⟨fun t ht htm => hv ⟨t, htm, ht⟩,
                fun x hx => detach_step_iff hx⟩

theorem dget?_some_pair_mem {α : Type} :
    ∀ {d : List (String × α)} {k : String} {v : α},
    dget? d k = some v → (k, v) ∈ d := by
  intro d
  induction d with
  | nil => intro k v h; cases h
  | cons hd t ih =>
    intro k v h
    obtain ⟨k₀, v₀⟩ := hd
    simp only [dget?] at h
    by_cases he : k₀ = k
    · rw [if_pos he] at h
      cases h
      subst he
      exact List.mem_cons_self _ _
    · rw [if_neg he] at h
      exact List.mem_cons_of_mem _ (ih h)

/-- C7: after `set_node_tags` completes successfully with a
`ray-node-status` key holding one of the six enumerated values, the backend
tag store holds exactly that one status tag out of `ALL_STATUS_TAGS`,
whatever status tags were attached before: the new status tag is attached
with verification and the other five are detached with verification. -/
theorem set_status_tag_exclusive (sch : Nat → TagCallEff)
    (store : List String) (tags : List (String × String)) (v : String)
    (store₂ : List String)
    (hv : dget? tags "ray-node-status" = some v)
    (hsix : ("ray-node-status:" ++ v) ∈ ALL_STATUS_TAGS)
    (hok : set_node_tags sch store tags = .ok store₂) :
    ∀ t ∈ ALL_STATUS_TAGS, (t ∈ store₂ ↔ t = "ray-node-status:" ++ v) := by
  unfold set_node_tags at hok
  simp only at hok
  cases h₁ : tagModifyRetries sch true
      (tags.map fun kv => kv.1 ++ ":" ++ kv.2) RETRIES store 0 false with
  | mk o₁ p₁ =>
    obtain ⟨st₁, k₁⟩ := p₁
    rw [h₁] at hok
    cases o₁ with
    | error e => simp at hok
    | ok b₁ =>
      cases b₁ with
      | false => simp at hok
      | true =>
        simp only at hok
        have hmem : "ray-node-status" ∈ tags.map Prod.fst :=
          List.mem_map.mpr ⟨("ray-node-status", v), dget?_some_pair_mem hv, rfl⟩
        rw [if_pos hmem, hv] at hok
        simp only [Option.getD_some] at hok
        unfold pyListRemove at hok
        rw [if_pos hsix] at hok
        simp only at hok
        cases h₂ : tagModifyRetries sch false
            (ALL_STATUS_TAGS.erase ("ray-node-status:" ++ v)) RETRIES st₁ k₁
            false with
        | mk o₂ p₂ =>
          obtain ⟨st₂, k₂⟩ := p₂
          rw [h₂] at hok
          cases o₂ with
          | error e => simp at hok
          | ok b₂ =>
            cases b₂ with
            | false => simp at hok
            | true =>
              simp only at hok
              cases hok
              obtain ⟨ha₁, _⟩ := tagModifyRetries_attach_ok h₁
              obtain ⟨hd₁, hd₂⟩ := tagModifyRetries_detach_ok h₂
              have hnodup : ALL_STATUS_TAGS.Nodup := by decide
              have hnew_mem : ("ray-node-status:" ++ v) ∈ st₁ :=
                ha₁ ("ray-node-status" ++ ":" ++ v)
                  (List.mem_map.mpr
                    ⟨("ray-node-status", v), dget?_some_pair_mem hv, rfl⟩)
              have hnot_erase : ("ray-node-status:" ++ v) ∉
                  ALL_STATUS_TAGS.erase ("ray-node-status:" ++ v) := by
                intro hmem₂
                exact ((List.Nodup.mem_erase_iff hnodup).mp hmem₂).1 rfl
              intro t ht
              constructor
              · intro htm
                by_contra hne
                exact hd₁ t ((List.mem_erase_of_ne hne).mpr ht) htm
              · intro hte
                subst hte
                exact (hd₂ _ hnot_erase).mpr hnew_mem

/-- Witness for C7: with a store holding the old status tag
`ray-node-status:uninitialized` and an immediately consistent tagging
backend, `set_node_tags` with status `up-to-date` leaves a store whose only
status tag is `ray-node-status:up-to-date`. -/
theorem set_status_tag_exclusive_witness :
    (dget? [("ray-node-status", "up-to-date")] "ray-node-status" =
      some "up-to-date") ∧
    (("ray-node-status:" ++ "up-to-date") ∈ ALL_STATUS_TAGS) ∧
    (set_node_tags fxSchOK ["ray-node-status:uninitialized", "x:y"]
        [("ray-node-status", "up-to-date")] =
      .ok ["x:y", "ray-node-status:up-to-date"]) ∧
    (∀ t ∈ ALL_STATUS_TAGS,
      (t ∈ ["x:y", "ray-node-status:up-to-date"] ↔
        t = "ray-node-status:" ++ "up-to-date")) :=
  ⟨rfl, by decide, rfl,
   set_status_tag_exclusive fxSchOK ["ray-node-status:uninitialized", "x:y"]
     [("ray-node-status", "up-to-date")] "up-to-date"
     ["x:y", "ray-node-status:up-to-date"] rfl (by decide) rfl⟩

/-- C8: error handling of `_create_instance`.  A 400 `ApiException`
mentioning "already exists" makes it return the instance that
`_get_instance_data` fetches by name instead of raising; a quota-exceeded
400 ("over quota", without "already exists") is logged and re-raised; any
other `ApiException` is re-raised as well. -/
theorem create_instance_error_handling (msg : String) (code : Nat)
    (r : VpcInstance) (rest listed : List VpcInstance) :
    (strIn "already exists" msg = true →
      create_instance (.error (.api 400 msg)) (r :: rest) = .ok (some r)) ∧
    (strIn "already exists" msg = false →
      create_instance (.error (.api 400 msg)) listed = .error (.api 400 msg)) ∧
    (code ≠ 400 →
      create_instance (.error (.api code msg)) listed =
        .error (.api code msg)) := by
  refine ⟨fun hex => ?_, fun hnex => ?_, fun hcode => ?_⟩
  · simp [create_instance, hex, get_instance_data]
  · simp [create_instance, hnex]
  · simp [create_instance, hcode]

/-- Witness for C8 at concrete error messages: an "already exists" 400
returns the listed instance, "over quota" and a 502 propagate. -/
theorem create_instance_error_handling_witness :
    (strIn "already exists" "Instance with name already exists" = true ∧
      create_instance
        (.error (.api 400 "Instance with name already exists"))
        [⟨"i1", "n1", "crn1"⟩] = .ok (some ⟨"i1", "n1", "crn1"⟩)) ∧
    (strIn "already exists" "VSI count over quota" = false ∧
      create_instance (.error (.api 400 "VSI count over quota")) [] =
        .error (.api 400 "VSI count over quota")) ∧
    (create_instance (.error (.api 502 "bad gateway")) [] =
      .error (.api 502 "bad gateway")) :=
  ⟨⟨rfl,
    (create_instance_error_handling "Instance with name already exists" 400
      ⟨"i1", "n1", "crn1"⟩ [] []).1 rfl⟩,
   ⟨rfl,
    (create_instance_error_handling "VSI count over quota" 400
      ⟨"", "", ""⟩ [] []).2.1 rfl⟩,
   (create_instance_error_handling "bad gateway" 502 ⟨"", "", ""⟩ [] []).2.2
     (by decide)⟩

/-- C10: `external_ip` returns None instead of raising when no floating ip
can be resolved.  Without `use_hybrid_ips`, when neither the cached record
nor the refreshed fetch carries a floating ip the function falls through to
None; with `use_hybrid_ips`, a head node whose records carry no floating ip
likewise yields None. -/
theorem external_ip_none_when_no_fip (cluster : String)
    (cached refreshed : SearchItem) (internalIp : Option String)
    (hc : cached.floating_ips = []) (hr : refreshed.floating_ips = []) :
    external_ip false cluster cached refreshed internalIp = none ∧
    (get_node_type cluster cached.name = some "head" →
      external_ip true cluster cached refreshed internalIp = none) := by
  constructor
  · unfold external_ip
    rw [if_neg (by simp)]
    rw [hc, hr]
  · intro hhead
    unfold external_ip get_hybrid_ip
    rw [if_pos rfl, if_pos hhead, hc, hr]

/-- Witness for C10: a head node with empty floating-ip lists in both the
cached and the refreshed record yields None in both modes. -/
theorem external_ip_none_when_no_fip_witness :
    (fxHeadNoFip.floating_ips = []) ∧
    (get_node_type "c1" fxHeadNoFip.name = some "head") ∧
    (external_ip false "c1" fxHeadNoFip fxHeadNoFip (some "10.0.0.5") =
      none) ∧
    (external_ip true "c1" fxHeadNoFip fxHeadNoFip (some "10.0.0.5") =
      none) :=
  ⟨rfl, by decide,
   (external_ip_none_when_no_fip "c1" fxHeadNoFip fxHeadNoFip
      (some "10.0.0.5") rfl rfl).1,
   (external_ip_none_when_no_fip "c1" fxHeadNoFip fxHeadNoFip
      (some "10.0.0.5") rfl rfl).2 (by decide)⟩

/-- C9, counterexample: with stopped-node reuse enabled, one matching
stopped instance and a requested count of 1 (so the reused node covers the
whole request), `create_node` does not return the map of reused records:
after `count -= len(stopped_nodes_ids)` the remaining count is 0 and
`ThreadPoolExecutor(0)` raises `ValueError("max_workers must be greater
than 0")` (line 837). -/
theorem create_node_zero_remainder_raises :
    create_node fxCreateState [fxStopItem] fxGetStopped fxRetagOK
      fxMkCreated 1 = .error (.valueError "max_workers must be greater than 0") := by
  rfl

theorem retagLoop_ok {retag : String → Except PyErr Unit}
    (hretag : ∀ id, retag id = .ok ()) :
    ∀ (ids deleted : List String), deleted.Nodup → ids.Nodup →
      (∀ i ∈ ids, i ∈ deleted) →
      ∃ d₂, retagLoop retag ids deleted = .ok d₂ ∧
        (∀ i ∈ ids, i ∉ d₂) ∧ d₂.Nodup ∧ (∀ x ∈ d₂, x ∈ deleted) := by
  intro ids
  induction ids with
  | nil =>
    intro deleted hnd _ _
    exact ⟨deleted, rfl, by simp, hnd, fun x hx => hx⟩
  | cons id t ih =>
    intro deleted hnd hids hmem
    obtain ⟨hid_t, ht⟩ := List.nodup_cons.mp hids
    have hrm : pyListRemove deleted id = .ok (deleted.erase id) := by
      unfold pyListRemove
      rw [if_pos (hmem id (List.mem_cons_self _ _))]
    obtain ⟨d₂, hd₂, hnotin, hnd₂, hsub⟩ :=
      ih (deleted.erase id) (hnd.erase id) ht
        (fun i hi =>
          (List.mem_erase_of_ne (fun he => hid_t (by rw [he] at hi; exact hi))).mpr
            (hmem i (List.mem_cons_of_mem _ hi)))
    refine ⟨d₂, ?_, ?_, hnd₂, fun x hx => List.mem_of_mem_erase (hsub x hx)⟩
    · unfold retagLoop
      rw [hretag id]
      simp only
      rw [hrm]
      exact hd₂
    · intro i hi
      rcases List.mem_cons.mp hi with rfl | hi
      · intro hin
        exact ((List.Nodup.mem_erase_iff hnd).mp (hsub i hin)).1 rfl
      · exact hnotin i hi

theorem dinsert_fresh {α : Type} :
    ∀ {d : List (String × α)} {k : String} (v : α),
    k ∉ d.map Prod.fst → dinsert d k v = d ++ [(k, v)] := by
  intro d
  induction d with
  | nil => intro k v _; rfl
  | cons hd t ih =>
    intro k v h
    obtain ⟨k₀, v₀⟩ := hd
    simp only [List.map_cons, List.mem_cons] at h
    push_neg at h
    unfold dinsert
    rw [if_neg (fun he => h.1 he.symm)]
    rw [ih v h.2]
    simp

theorem dictExtend_keys_append {α : Type} :
    ∀ (l init : List (String × α)),
    (∀ kv ∈ l, kv.1 ∉ init.map Prod.fst) →
    (l.map Prod.fst).Nodup →
    (dictExtend init l).map Prod.fst =
      init.map Prod.fst ++ l.map Prod.fst := by
  intro l
  induction l with
  | nil => intro init _ _; simp [dictExtend]
  | cons hd t ih =>
    intro init hfresh hnd
    rw [List.map_cons] at hnd
    obtain ⟨hhd, hnd₂⟩ := List.nodup_cons.mp hnd
    have h₁ : dinsert init hd.1 hd.2 = init ++ [(hd.1, hd.2)] :=
      dinsert_fresh hd.2 (hfresh hd (List.mem_cons_self _ _))
    have hstep : dictExtend init (hd :: t) =
        dictExtend (dinsert init hd.1 hd.2) t := rfl
    rw [hstep, ih (dinsert init hd.1 hd.2) ?_ hnd₂, h₁]
    · simp
    · intro kv hkv
      rw [h₁]
      simp only [List.map_append, List.mem_append]
      push_neg
      refine ⟨hfresh kv (List.mem_cons_of_mem _ hkv), ?_⟩
      simp only [List.map_cons, List.map_nil, List.mem_singleton]
      intro he
      exact hhd (he ▸ List.mem_map_of_mem Prod.fst hkv)

/-- C9, amended: with stopped-node reuse enabled and strictly fewer
matching stopped nodes than the requested count, `create_node` starts and
retags the stopped nodes, removes each reused id from the deleted-ids list,
subtracts the reused count, and returns the union of reused and created
records, `count` entries in total; when the stopped nodes cover the whole
requested count the zero-worker pool raises instead (see the
counterexample). -/
theorem create_node_reuses_stopped (s : ProviderState)
    (searchItems : List SearchItem) (getStatus : String → Except PyErr String)
    (retag : String → Except PyErr Unit)
    (mkCreated : Nat → String × SearchItem) (count : Int)
    (stopped : List SearchItem)
    (hcache : s.cache_stopped_nodes = true)
    (hstopped : stopped_nodes getStatus searchItems = .ok stopped)
    (hretag : ∀ id, retag id = .ok ())
    (hdel : ∀ i ∈ stopped.map (fun n => n.resource_id), i ∈ s.deleted_nodes)
    (hnd : s.deleted_nodes.Nodup)
    (hcount : (stopped.length : Int) < count)
    (hkeys : ((stopped.map fun n => n.resource_id) ++
        (List.range (count - (stopped.length : Int)).toNat).map
          (fun i => (mkCreated i).1)).Nodup) :
    ∃ s₂ m, create_node s searchItems getStatus retag mkCreated count =
        .ok (s₂, m) ∧
      (∀ i ∈ stopped.map (fun n => n.resource_id), i ∉ s₂.deleted_nodes) ∧
      m.map Prod.fst = (stopped.map fun n => n.resource_id) ++
        (List.range (count - (stopped.length : Int)).toNat).map
          (fun i => (mkCreated i).1) ∧
      m.length = count.toNat := by
  obtain ⟨hnd₁, hnd₂, hdisj⟩ := List.nodup_append.mp hkeys
  obtain ⟨d₂, hd₂, hnotin, _, _⟩ :=
    retagLoop_ok hretag (stopped.map fun n => n.resource_id) s.deleted_nodes
      hnd hnd₁ hdel
  have hrun : create_node s searchItems getStatus retag mkCreated count =
      .ok ({ s with deleted_nodes := d₂ },
        dictExtend (dictOfList (stopped.map fun n => (n.resource_id, n)))
          ((List.range
              (count - ((stopped.map fun n => n.resource_id).length : Int)).toNat).map
            mkCreated)) := by
    unfold create_node
    rw [if_pos hcache, hstopped]
    simp only
    rw [hd₂]
    simp only
    rw [if_neg (show ¬(count -
        ((stopped.map fun n => n.resource_id).length : Int) ≤ 0) by
      simp only [List.length_map]; omega)]
  have hlenmap : ((stopped.map fun n => n.resource_id).length : Int) =
      (stopped.length : Int) := by simp
  have hcreatedkeys :
      (((List.range (count - (stopped.length : Int)).toNat).map
        mkCreated).map Prod.fst) =
      (List.range (count - (stopped.length : Int)).toNat).map
        (fun i => (mkCreated i).1) := by
    simp [List.map_map, Function.comp]
  have hpairskeys :
      ((stopped.map fun n => (n.resource_id, n)).map Prod.fst) =
      stopped.map fun n => n.resource_id := by
    simp [List.map_map, Function.comp]
  have hinitkeys : ((dictOfList (stopped.map fun n => (n.resource_id, n))).map
      Prod.fst) = stopped.map fun n => n.resource_id := by
    have := dictExtend_keys_append (stopped.map fun n => (n.resource_id, n)) []
      (by intro kv _ hkv; simp at hkv) (by rw [hpairskeys]; exact hnd₁)
    simpa [dictOfList, hpairskeys] using this
  have hmkeys : ((dictExtend (dictOfList (stopped.map fun n => (n.resource_id, n)))
      ((List.range (count - (stopped.length : Int)).toNat).map
        mkCreated)).map Prod.fst) =
      (stopped.map fun n => n.resource_id) ++
      (List.range (count - (stopped.length : Int)).toNat).map
        (fun i => (mkCreated i).1) := by
    have := dictExtend_keys_append
      ((List.range (count - (stopped.length : Int)).toNat).map mkCreated)
      (dictOfList (stopped.map fun n => (n.resource_id, n)))
      (by
        intro kv hkv
        rw [hinitkeys]
        intro hbad
        have hkv₁ : kv.1 ∈ (List.range
            (count - (stopped.length : Int)).toNat).map
            (fun i => (mkCreated i).1) := by
          rw [← hcreatedkeys]
          exact List.mem_map_of_mem Prod.fst hkv
        exact (hdisj hbad) hkv₁)
      (by rw [hcreatedkeys]; exact hnd₂)
    rw [this, hinitkeys, hcreatedkeys]
  refine ⟨{ s with deleted_nodes := d₂ }, _,
    by rw [hrun, hlenmap], hnotin, hmkeys, ?_⟩
  · have hlen := congrArg List.length hmkeys
    simp only [List.length_map, List.length_append, List.length_range] at hlen ⊢
    omega

/-- Witness for C9, the spec scenario: count = 3 with one matching stopped
instance (already in the deleted-ids list); the id leaves the deleted list,
two nodes are created, and the returned map has exactly 3 entries. -/
theorem create_node_reuses_stopped_witness :
    (fxCreateState.cache_stopped_nodes = true) ∧
    (stopped_nodes fxGetStopped [fxStopItem] = .ok [fxStopItem]) ∧
    (∃ s₂ m, create_node fxCreateState [fxStopItem] fxGetStopped fxRetagOK
        fxMkCreated 3 = .ok (s₂, m) ∧
      (∀ i ∈ [fxStopItem].map (fun n => n.resource_id),
        i ∉ s₂.deleted_nodes) ∧
      m.map Prod.fst = ([fxStopItem].map fun n => n.resource_id) ++
        (List.range ((3 : Int) - (([fxStopItem].length : Int))).toNat).map
          (fun i => (fxMkCreated i).1) ∧
      m.length = (3 : Int).toNat) :=
  ⟨rfl, rfl,
   create_node_reuses_stopped fxCreateState [fxStopItem] fxGetStopped
     fxRetagOK fxMkCreated 3 [fxStopItem] rfl rfl (fun _ => rfl)
     (by decide) (by decide) (by decide) (by decide)⟩
